import Mathlib

/-!
Shallow embedding of the world-generation core of the `3d_adventure_game`
repository: the deterministic RNG (`src/rng.js`) and the world builder
(`createWorld` with its patch loop, path carver, tree scatter and landmark
registry). JavaScript 32-bit integer operations are modelled over `ℕ` with
explicit `% 2^32`; the floats produced by the RNG are exact dyadic rationals
`k / 2^32` and are modelled in `ℚ`. Transcendental functions (`Math.cos`,
`Math.sin`) only influence path point coordinates, never control flow or RNG
consumption, so they are abstracted as an explicit `Trig` parameter.
-/

namespace AdventureWorld

/-- The modulus `2^32` of all JavaScript 32-bit coercions used by the code. -/
def M32 : ℕ := 4294967296

/-- The low-32-bit image of one advance of the mulberry32 counter
(`t += 0x6D2B79F5`, `src/rng.js` line 6). The raw closure variable `t` is
never written back through a 32-bit coercion and is modelled faithfully by
`mulberryStepJs` below; every read site coerces `t` to its bit pattern
`t % 2^32`, and `mulberryStep` is the advance as seen through that image,
which drives every output (`rngStateJs_mod`). -/
def mulberryStep (t : ℕ) : ℕ := (t + 0x6D2B79F5) % M32

/-- The mulberry32 output mix applied to the (already advanced) counter `t`:
`x = imul(t ^ (t >>> 15), 1 | t); x ^= x + imul(x ^ (x >>> 7), 61 | x);
return (x ^ (x >>> 14)) >>> 0`, all 32-bit, from `src/rng.js` lines 7-9.
The returned value is the 32-bit numerator of the float `out / 2^32`. -/
def mulberryOut (t : ℕ) : ℕ :=
  let x1 := ((t ^^^ (t >>> 15)) * (1 ||| t)) % M32
  let x2 := x1 ^^^ ((x1 + ((x1 ^^^ (x1 >>> 7)) * (61 ||| x1)) % M32) % M32)
  x2 ^^^ (x2 >>> 14)

/-- One call of the closure `rand()`: advances the counter, returns the new
output numerator together with the new counter. -/
def rand (s : ℕ) : ℕ × ℕ := (mulberryOut (mulberryStep s), mulberryStep s)

/-- The float value returned by `rand()`, exactly: `out / 4294967296 : ℚ`. -/
def randQ (s : ℕ) : ℚ := (mulberryOut (mulberryStep s) : ℚ) / M32

/-- FNV-1a string hash from `src/rng.js` lines 13-21: start from 2166136261,
for each UTF-16 code unit XOR then multiply by 16777619 (mod `2^32`). -/
def hashStringToUint32 (s : String) : ℕ :=
  s.data.foldl (fun h c => ((h ^^^ c.toNat) * 16777619) % M32) 2166136261

/-- The JavaScript values a caller can pass as the `seed` argument of
`createRng(seed = "default")`: omitted/undefined, a string, or a number. -/
inductive JsSeed where
  | undef : JsSeed
  | str (s : String) : JsSeed
  | num (n : ℕ) : JsSeed

/-- The initial RNG counter produced by `createRng` (`src/rng.js` lines 23-25):
an omitted or undefined seed takes the default parameter `"default"`; a string
is hashed; a number is used directly (coerced by `seed >>> 0` in
`mulberry32`). -/
def createRngState : JsSeed → ℕ
  | .undef => hashStringToUint32 "default"
  | .str s => hashStringToUint32 s
  | .num n => n % M32

/-- The RNG counter after `n` draws from a freshly constructed RNG. -/
def rngState (seed : JsSeed) (n : ℕ) : ℕ := mulberryStep^[n] (createRngState seed)

/-- The `n`-th (0-indexed) float returned by `rand()` for a given seed. -/
def rngOutQ (seed : JsSeed) (n : ℕ) : ℚ := randQ (rngState seed n)

/-- Operation `float(min, max)` from `src/rng.js` lines 29-31: value and new state. -/
def float (mn mx : ℚ) (s : ℕ) : ℚ × ℕ := (mn + (mx - mn) * randQ s, mulberryStep s)

/-- Operation `int(minInclusive, maxInclusive)` from `src/rng.js` lines 32-35. -/
def int (a b : ℤ) (s : ℕ) : ℤ × ℕ :=
  (⌊(a : ℚ) + randQ s * ((b : ℚ) - (a : ℚ) + 1)⌋, mulberryStep s)

/-- Operation `pick(arr)` from `src/rng.js` lines 36-38: `arr[floor(rand()*arr.length)]`.
Out-of-range indexing (in particular on an empty array) yields JavaScript
`undefined`, modelled as `none`. -/
def pick {α : Type} (arr : List α) (s : ℕ) : Option α × ℕ :=
  (arr[(mulberryOut (mulberryStep s) * arr.length) / M32]?, mulberryStep s)

/-- The raw closure variable `t` of `mulberry32`: `t += 0x6D2B79F5`
(`src/rng.js` line 6) is a plain addition with no 32-bit write-back — the
coercions (`>>>`, `^`, `|`, `Math.imul`) happen only at read sites. The
binary64 addition is exact while `t` stays below `2^53` (about the first
4.9 million draws), where it coincides with this integer addition; the
counter leaves `[0, 2^32)` immediately and grows without bound. -/
def mulberryStepJs (t : ℕ) : ℕ := t + 0x6D2B79F5

/-- The raw closure state after `n` draws from a freshly constructed RNG. -/
def rngStateJs (seed : JsSeed) (n : ℕ) : ℕ :=
  mulberryStepJs^[n] (createRngState seed)

/-- One call of `rand()` on the raw closure state: the stored state is the
unreduced sum, while the output mix reads `t` through the 32-bit coercions
and therefore sees only `t % 2^32`. -/
def randJs (s : ℕ) : ℕ × ℕ :=
  (mulberryOut (mulberryStepJs s % M32), mulberryStepJs s)

/-- Operation `float(min, max)` on the raw closure state. -/
def floatJs (mn mx : ℚ) (s : ℕ) : ℚ × ℕ :=
  (mn + (mx - mn) * ((mulberryOut (mulberryStepJs s % M32) : ℚ) / M32),
    mulberryStepJs s)

/-- Operation `int(minInclusive, maxInclusive)` on the raw closure state. -/
def intJs (a b : ℤ) (s : ℕ) : ℤ × ℕ :=
  (⌊(a : ℚ) + ((mulberryOut (mulberryStepJs s % M32) : ℚ) / M32)
      * ((b : ℚ) - (a : ℚ) + 1)⌋, mulberryStepJs s)

lemma M32_eq_pow : M32 = 2 ^ 32 := rfl

lemma M32_pos : 0 < M32 := by decide

/-- The mulberry32 output numerator is always a 32-bit value. -/
lemma mulberryOut_lt (t : ℕ) : mulberryOut t < M32 := by
  unfold mulberryOut
  rw [M32_eq_pow]
  have h1 : ((t ^^^ (t >>> 15)) * (1 ||| t)) % M32 < 2 ^ 32 :=
    Nat.mod_lt _ (by decide)
  set x1 := ((t ^^^ (t >>> 15)) * (1 ||| t)) % M32 with hx1
  have h2 : (x1 + ((x1 ^^^ (x1 >>> 7)) * (61 ||| x1)) % M32) % M32 < 2 ^ 32 :=
    Nat.mod_lt _ (by decide)
  have h3 : x1 ^^^ ((x1 + ((x1 ^^^ (x1 >>> 7)) * (61 ||| x1)) % M32) % M32) < 2 ^ 32 :=
    Nat.xor_lt_two_pow h1 h2
  set x2 := x1 ^^^ ((x1 + ((x1 ^^^ (x1 >>> 7)) * (61 ||| x1)) % M32) % M32) with hx2
  have h4 : x2 >>> 14 < 2 ^ 32 := by
    calc x2 >>> 14 ≤ x2 := by
          rw [Nat.shiftRight_eq_div_pow]; exact Nat.div_le_self _ _
      _ < 2 ^ 32 := h3
  exact Nat.xor_lt_two_pow h3 h4

/-- The advanced counter is always a 32-bit value. -/
lemma mulberryStep_lt (t : ℕ) : mulberryStep t < M32 :=
  Nat.mod_lt _ M32_pos

/-- Advancing the counter always changes it: the increment is a nonzero
odd constant, not a multiple of `2^32`. -/
lemma mulberryStep_ne (t : ℕ) : mulberryStep t ≠ t := by
  unfold mulberryStep M32
  omega

lemma hashStringToUint32_lt (s : String) : hashStringToUint32 s < M32 := by
  unfold hashStringToUint32
  induction s.data using List.reverseRecOn with
  | nil => decide
  | append_singleton xs c _ =>
      rw [List.foldl_append]
      exact Nat.mod_lt _ M32_pos

lemma createRngState_lt (seed : JsSeed) : createRngState seed < M32 := by
  cases seed with
  | undef => exact hashStringToUint32_lt "default"
  | str s => exact hashStringToUint32_lt s
  | num n => exact Nat.mod_lt _ M32_pos

lemma rngState_lt (seed : JsSeed) (n : ℕ) : rngState seed n < M32 := by
  induction n with
  | zero => exact createRngState_lt seed
  | succ k ih =>
      rw [rngState, Function.iterate_succ_apply']
      exact mulberryStep_lt _

/-- Advancing the raw counter commutes with the read-site coercion: the low
32 bits evolve exactly as the reduced 32-bit model does. -/
lemma mulberryStepJs_mod (t : ℕ) :
    mulberryStepJs t % M32 = mulberryStep (t % M32) := by
  unfold mulberryStepJs mulberryStep
  conv_lhs => rw [Nat.add_mod]
  rw [Nat.mod_eq_of_lt (by norm_num [M32] : (0x6D2B79F5 : ℕ) < M32)]

/-- The read-site image of the raw closure state is the reduced 32-bit
counter: outputs of the two models coincide at every draw. -/
lemma rngStateJs_mod (seed : JsSeed) (n : ℕ) :
    rngStateJs seed n % M32 = rngState seed n := by
  induction n with
  | zero =>
      unfold rngStateJs rngState
      rw [Function.iterate_zero_apply, Function.iterate_zero_apply]
      exact Nat.mod_eq_of_lt (createRngState_lt seed)
  | succ k ih =>
      have hl : rngStateJs seed (k + 1) = mulberryStepJs (rngStateJs seed k) :=
        Function.iterate_succ_apply' _ _ _
      have hr : rngState seed (k + 1) = mulberryStep (rngState seed k) :=
        Function.iterate_succ_apply' _ _ _
      rw [hl, hr, mulberryStepJs_mod, ih]

lemma randQ_nonneg (s : ℕ) : 0 ≤ randQ s := by
  unfold randQ
  apply div_nonneg
  · exact_mod_cast Nat.zero_le _
  · exact_mod_cast Nat.zero_le M32

lemma randQ_lt_one (s : ℕ) : randQ s < 1 := by
  unfold randQ
  rw [div_lt_one (by norm_num [M32])]
  exact_mod_cast mulberryOut_lt (mulberryStep s)

/-! ## World data model (`src/unnamed/part_000`)

The returned object of `createWorld` is `{ bounds, patches, paths, landmarks }`.
Tree scatter instances are produced transiently (as `addTree` side effects);
the model records them as an explicit trace list. -/

/-- A 2D world-space point, as built by `v2(x, z)`. -/
structure V2 where
  x : ℚ
  z : ℚ
deriving DecidableEq

/-- A ground patch record pushed by `addPatch`: `{ x, z, r, color }`. -/
structure Patch where
  x : ℚ
  z : ℚ
  r : ℚ
  color : ℕ
deriving DecidableEq

/-- A path record pushed by `carvePath`: `{ width, points }`. -/
structure GamePath where
  width : ℚ
  points : List V2
deriving DecidableEq

/-- A landmark record pushed by `addLandmarks`. -/
structure Landmark where
  id : String
  name : String
  type : String
  x : ℚ
  z : ℚ
deriving DecidableEq

/-- One scattered tree instance: position and the size scale passed to
`addTree`. Transient scatter output, not part of the returned World. -/
structure TreeInst where
  x : ℚ
  z : ℚ
  s : ℚ
deriving DecidableEq

/-- The object returned by `createWorld`. -/
structure World where
  bounds : ℚ
  patches : List Patch
  paths : List GamePath
  landmarks : List Landmark
deriving DecidableEq

/-- Abstract model of the transcendental functions `Math.cos` / `Math.sin`.
They feed only the path point coordinates, never a branch or an RNG draw, so
the generator is parametrised by an arbitrary such pair. -/
structure Trig where
  cos : ℚ → ℚ
  sin : ℚ → ℚ

/-- A concrete placeholder trig model used to instantiate theorems at a
closed input; path point counts and everything outside path coordinates are
independent of the trig model. -/
def trivialTrig : Trig := ⟨fun _ => 1, fun _ => 0⟩

/-- The exact binary64 value of the literal `0.12` (default `turnChance`). -/
def turnChance012 : ℚ := 8646911284551352 / 72057594037927936

/-- The exact binary64 value of the literal `1.2` (turn perturbation scale). -/
def turnScale12 : ℚ := 5404319552844595 / 4503599627370496

/-- The exact binary64 value of the literal `0.9` (tree size range). -/
def sizeRange09 : ℚ := 8106479329266893 / 9007199254740992

/-- The exact binary64 value of the literal `5.2` (third path width). -/
def width52 : ℚ := 5854679515581645 / 1125899906842624

/-- The exact binary64 value of `Math.PI`. -/
def piD : ℚ := 7074237752028440 / 2251799813685248

/-- Registry `addLandmarks` (`src/unnamed/part_000` lines 34-109): a fixed list of four
landmark records, pushed in source order; no RNG argument is taken and no RNG
draw occurs. -/
def addLandmarks : List Landmark :=
  [ ⟨"stone_ring", "Stone Ring", "stone", -120, -80⟩,
    ⟨"pond", "Pond", "water", 110, 90⟩,
    ⟨"watch_rock", "Watch Rock", "rock", -140, 120⟩,
    ⟨"dead_tree", "Dead Tree", "tree", 150, -110⟩ ]

/-- The patch loop of `createWorld` (lines 136-143): each iteration draws
x, z, radius and pushes `{ x, z, r, color: 0x2b5f34 }`, in order. -/
def genPatches : ℕ → ℕ → List Patch × ℕ
  | 0, s => ([], s)
  | n + 1, s =>
    let r1 := rand s
    let r2 := rand r1.2
    let r3 := rand r2.2
    let p : Patch :=
      ⟨((r1.1 : ℚ) / M32 - 1/2) * 350, ((r2.1 : ℚ) / M32 - 1/2) * 350,
        6 + (r3.1 : ℚ) / M32 * 14, 0x2b5f34⟩
    let rest := genPatches n r3.2
    (p :: rest.1, rest.2)

/-- The step loop of `carvePath` (lines 153-165): per step, one draw decides
turning (strict `< turnChance`); a turn consumes a second draw; the position
advances by `stepLen` along the heading and is appended to the polyline. -/
def carveSteps (trig : Trig) (stepLen turnChance : ℚ) :
    ℕ → ℚ → ℚ → ℚ → ℕ → List V2 × ℕ
  | 0, _, _, _, s => ([], s)
  | n + 1, x, z, ang, s =>
    let r1 := rand s
    let a2 :=
      if (r1.1 : ℚ) / M32 < turnChance then
        let r2 := rand r1.2
        (ang + ((r2.1 : ℚ) / M32 - 1/2) * turnScale12, r2.2)
      else (ang, r1.2)
    let nx := x + trig.cos a2.1 * stepLen
    let nz := z + trig.sin a2.1 * stepLen
    let rest := carveSteps trig stepLen turnChance n nx nz a2.1 a2.2
    (⟨nx, nz⟩ :: rest.1, rest.2)

/-- Function `carvePath` (lines 149-167): one draw seeds the heading, the start point
is the first polyline entry, then `steps` iterations; pushes
`{ width, points }`. -/
def carvePath (trig : Trig) (startX startZ : ℚ) (steps : ℕ)
    (stepLen width turnChance : ℚ) (s : ℕ) : GamePath × ℕ :=
  let r0 := rand s
  let ang0 := (r0.1 : ℚ) / M32 * piD * 2
  let walk := carveSteps trig stepLen turnChance steps startX startZ ang0 r0.2
  (⟨width, ⟨startX, startZ⟩ :: walk.1⟩, walk.2)

/-- One corridor exclusion zone from `nearCorridor` (lines 179-183). -/
structure Corridor where
  x : ℚ
  z : ℚ
  r : ℚ

/-- The three hard-coded corridors around the path start areas. -/
def corridors : List Corridor :=
  [⟨-60, 20, 22⟩, ⟨40, -30, 22⟩, ⟨0, 0, 20⟩]

/-- Function `nearCorridor(x, z)` (lines 177-189): returns true when the squared
distance to some corridor centre is strictly below the squared radius. -/
def nearCorridor (x z : ℚ) : Bool :=
  corridors.any fun c =>
    decide ((x - c.x) * (x - c.x) + (z - c.z) * (z - c.z) < c.r * c.r)

/-- Modelled from the spec's words for comparison: the membership test
described as an *inclusive* squared-distance comparison
(`dist^2 <= r^2`), where the source's `nearCorridor` uses strict `<`. -/
def nearCorridorInclusive (x z : ℚ) : Bool :=
  corridors.any fun c =>
    decide ((x - c.x) * (x - c.x) + (z - c.z) * (z - c.z) ≤ c.r * c.r)

/-- The x coordinate of a scatter candidate drawn at state `s`:
`(rng.rand() - 0.5) * 360` (line 193). -/
def candX (s : ℕ) : ℚ := (((rand s).1 : ℚ) / M32 - 1/2) * 360

/-- The z coordinate of a scatter candidate: the second draw (line 194). -/
def candZ (s : ℕ) : ℚ := (((rand (rand s).2).1 : ℚ) / M32 - 1/2) * 360

/-- Result of one tree-scatter iteration: the instance placed (if any), the
number of `rand()` calls consumed, and the RNG state afterwards. -/
structure TreeStepOut where
  inst : Option TreeInst
  draws : ℕ
  state : ℕ
deriving DecidableEq

/-- One iteration of the tree loop (lines 192-197): draw x and z; if the
candidate is near a corridor, draw a skip decision (`rand() < 0.75`,
short-circuit `&&`) and drop the candidate when it fires; otherwise draw a
size scale `0.75 + rand() * 0.9` and place the tree. -/
def treeStep (s : ℕ) : TreeStepOut :=
  let x := candX s
  let z := candZ s
  let s2 := (rand (rand s).2).2
  if nearCorridor x z then
    let r3 := rand s2
    if (r3.1 : ℚ) / M32 < 3/4 then ⟨none, 3, r3.2⟩
    else
      let r4 := rand r3.2
      ⟨some ⟨x, z, 3/4 + (r4.1 : ℚ) / M32 * sizeRange09⟩, 4, r4.2⟩
  else
    let r3 := rand s2
    ⟨some ⟨x, z, 3/4 + (r3.1 : ℚ) / M32 * sizeRange09⟩, 3, r3.2⟩

/-- The tree loop (`treeCount = 650`): iterates `treeStep`, collecting placed
instances in candidate order. -/
def genTrees : ℕ → ℕ → List TreeInst × ℕ
  | 0, s => ([], s)
  | n + 1, s =>
    let st := treeStep s
    let rest := genTrees n st.state
    (match st.inst with
      | some t => t :: rest.1
      | none => rest.1, rest.2)

/-- Function `createWorld` (lines 111-208): 70 patches, then the three configured
paths in order (steps 75 / 75 / 55), then 650 tree-scatter candidates, then
the fixed landmarks; returns `{ bounds, patches, paths, landmarks }` plus the
transient scatter trace. `worldSize` only sizes the ground mesh (render-side)
and does not influence the generated data. No validation of any argument is
performed. -/
def createWorld (trig : Trig) (worldSize bounds : ℚ) (s0 : ℕ) :
    World × List TreeInst :=
  let _ground := worldSize
  let pr := genPatches 70 s0
  let c1 := carvePath trig (-60) 20 75 7 5 turnChance012 pr.2
  let c2 := carvePath trig 40 (-30) 75 7 5 turnChance012 c1.2
  let c3 := carvePath trig 0 0 55 8 width52 turnChance012 c2.2
  let tr := genTrees 650 c3.2
  (⟨bounds, pr.1, [c1.1, c2.1, c3.1], addLandmarks⟩, tr.1)

/-! ## Structural lemmas -/

lemma genPatches_length (n : ℕ) : ∀ s : ℕ, (genPatches n s).1.length = n := by
  induction n with
  | zero => intro s; rfl
  | succ k ih =>
      intro s
      simp only [genPatches, List.length_cons, ih]

lemma carveSteps_length (trig : Trig) (stepLen turnChance : ℚ) (n : ℕ) :
    ∀ (x z ang : ℚ) (s : ℕ),
      (carveSteps trig stepLen turnChance n x z ang s).1.length = n := by
  induction n with
  | zero => intro x z ang s; rfl
  | succ k ih =>
      intro x z ang s
      simp only [carveSteps, List.length_cons, ih]

lemma carvePath_points_length (trig : Trig) (startX startZ : ℚ) (steps : ℕ)
    (stepLen width turnChance : ℚ) (s : ℕ) :
    (carvePath trig startX startZ steps stepLen width turnChance s).1.points.length
      = steps + 1 := by
  simp only [carvePath, List.length_cons, carveSteps_length]

lemma carvePath_head (trig : Trig) (startX startZ : ℚ) (steps : ℕ)
    (stepLen width turnChance : ℚ) (s : ℕ) :
    (carvePath trig startX startZ steps stepLen width turnChance s).1.points.head?
      = some ⟨startX, startZ⟩ := rfl

lemma createWorld_paths (trig : Trig) (worldSize bounds : ℚ) (s0 : ℕ) :
    (createWorld trig worldSize bounds s0).1.paths =
      [ (carvePath trig (-60) 20 75 7 5 turnChance012 (genPatches 70 s0).2).1,
        (carvePath trig 40 (-30) 75 7 5 turnChance012
          (carvePath trig (-60) 20 75 7 5 turnChance012 (genPatches 70 s0).2).2).1,
        (carvePath trig 0 0 55 8 width52 turnChance012
          (carvePath trig 40 (-30) 75 7 5 turnChance012
            (carvePath trig (-60) 20 75 7 5 turnChance012 (genPatches 70 s0).2).2).2).1 ] :=
  rfl

lemma createWorld_landmarks (trig : Trig) (worldSize bounds : ℚ) (s0 : ℕ) :
    (createWorld trig worldSize bounds s0).1.landmarks = addLandmarks := rfl

lemma createWorld_patches (trig : Trig) (worldSize bounds : ℚ) (s0 : ℕ) :
    (createWorld trig worldSize bounds s0).1.patches = (genPatches 70 s0).1 := rfl

lemma createWorld_bounds (trig : Trig) (worldSize bounds : ℚ) (s0 : ℕ) :
    (createWorld trig worldSize bounds s0).1.bounds = bounds := rfl

lemma createWorld_path_lengths (trig : Trig) (worldSize bounds : ℚ) (s0 : ℕ) :
    (createWorld trig worldSize bounds s0).1.paths.map (fun p => p.points.length)
      = [76, 76, 56] := by
  rw [createWorld_paths]
  simp only [List.map_cons, List.map_nil, carvePath_points_length]

/-! ## Corridor boundary unreachability

Scatter candidates have the exact dyadic form `(v/2^32 - 1/2) * 360`. On this
grid a squared distance to a corridor centre can never equal the squared
radius (a divisibility argument mod 5 resp. mod 3), so the source's strict
comparison and the spec's inclusive comparison agree on every candidate. -/

/-- The coordinate grid of scatter candidates: `(v / 2^32 - 0.5) * 360`. -/
def candQ (v : ℕ) : ℚ := ((v : ℚ) / M32 - 1/2) * 360

lemma candX_eq (s : ℕ) : candX s = candQ (rand s).1 := rfl

lemma candZ_eq (s : ℕ) : candZ s = candQ (rand (rand s).2).1 := rfl

lemma zmod5_corr1 : ∀ a b : ZMod 5,
    (360 * a - 515396075520) ^ 2 + (360 * b - 858993459200) ^ 2
      ≠ 484 * 18446744073709551616 := by decide

lemma zmod5_corr2 : ∀ a b : ZMod 5,
    (360 * a - 944892805120) ^ 2 + (360 * b - 644245094400) ^ 2
      ≠ 484 * 18446744073709551616 := by decide

lemma zmod3_corr3 : ∀ a b : ZMod 3,
    (360 * a - 773094113280) ^ 2 + (360 * b - 773094113280) ^ 2
      ≠ 400 * 18446744073709551616 := by decide

lemma candQ_ne_corr1 (v u : ℕ) :
    (candQ v - -60) * (candQ v - -60) + (candQ u - 20) * (candQ u - 20) ≠ 484 := by
  intro h
  have hq : (360 * (v : ℚ) - 515396075520) ^ 2 + (360 * (u : ℚ) - 858993459200) ^ 2
      = 484 * 18446744073709551616 := by
    have hM : ((M32 : ℕ) : ℚ) = 4294967296 := by norm_num [M32]
    unfold candQ at h
    rw [hM] at h
    linear_combination (18446744073709551616 : ℚ) * h
  have hz : (360 * (v : ℤ) - 515396075520) ^ 2 + (360 * (u : ℤ) - 858993459200) ^ 2
      = 484 * 18446744073709551616 := by exact_mod_cast hq
  have h5 := congrArg (fun n : ℤ => (n : ZMod 5)) hz
  push_cast at h5
  exact zmod5_corr1 _ _ h5

lemma candQ_ne_corr2 (v u : ℕ) :
    (candQ v - 40) * (candQ v - 40) + (candQ u - -30) * (candQ u - -30) ≠ 484 := by
  intro h
  have hq : (360 * (v : ℚ) - 944892805120) ^ 2 + (360 * (u : ℚ) - 644245094400) ^ 2
      = 484 * 18446744073709551616 := by
    have hM : ((M32 : ℕ) : ℚ) = 4294967296 := by norm_num [M32]
    unfold candQ at h
    rw [hM] at h
    linear_combination (18446744073709551616 : ℚ) * h
  have hz : (360 * (v : ℤ) - 944892805120) ^ 2 + (360 * (u : ℤ) - 644245094400) ^ 2
      = 484 * 18446744073709551616 := by exact_mod_cast hq
  have h5 := congrArg (fun n : ℤ => (n : ZMod 5)) hz
  push_cast at h5
  exact zmod5_corr2 _ _ h5

lemma candQ_ne_corr3 (v u : ℕ) :
    (candQ v - 0) * (candQ v - 0) + (candQ u - 0) * (candQ u - 0) ≠ 400 := by
  intro h
  have hq : (360 * (v : ℚ) - 773094113280) ^ 2 + (360 * (u : ℚ) - 773094113280) ^ 2
      = 400 * 18446744073709551616 := by
    have hM : ((M32 : ℕ) : ℚ) = 4294967296 := by norm_num [M32]
    unfold candQ at h
    rw [hM] at h
    linear_combination (18446744073709551616 : ℚ) * h
  have hz : (360 * (v : ℤ) - 773094113280) ^ 2 + (360 * (u : ℤ) - 773094113280) ^ 2
      = 400 * 18446744073709551616 := by exact_mod_cast hq
  have h3 := congrArg (fun n : ℤ => (n : ZMod 3)) hz
  push_cast at h3
  exact zmod3_corr3 _ _ h3

/-- On the candidate grid the strict (source) and inclusive (spec) corridor
tests coincide: the boundary is unreachable. -/
lemma nearCorridor_eq_inclusive (v u : ℕ) :
    nearCorridor (candQ v) (candQ u) = nearCorridorInclusive (candQ v) (candQ u) := by
  have key : ∀ (d r : ℚ), d ≠ r → decide (d < r) = decide (d ≤ r) := by
    intro d r hne
    rw [decide_eq_decide]
    exact ⟨le_of_lt, fun hle => lt_of_le_of_ne hle hne⟩
  unfold nearCorridor nearCorridorInclusive corridors
  simp only [List.any_cons, List.any_nil, Bool.or_false]
  rw [key _ _ (by exact_mod_cast candQ_ne_corr1 v u),
    key _ _ (by exact_mod_cast candQ_ne_corr2 v u),
    key _ _ (by exact_mod_cast candQ_ne_corr3 v u)]

/-! ## Tree-step draw accounting -/

lemma rand_snd (s : ℕ) : (rand s).2 = mulberryStep s := rfl

lemma iterate_step_three (s : ℕ) :
    mulberryStep^[3] s = mulberryStep (mulberryStep (mulberryStep s)) := by
  rw [Function.iterate_succ_apply, Function.iterate_succ_apply,
    Function.iterate_succ_apply, Function.iterate_zero_apply]

lemma iterate_step_four (s : ℕ) :
    mulberryStep^[4] s
      = mulberryStep (mulberryStep (mulberryStep (mulberryStep s))) := by
  rw [Function.iterate_succ_apply, Function.iterate_succ_apply,
    Function.iterate_succ_apply, Function.iterate_succ_apply,
    Function.iterate_zero_apply]

lemma treeStep_draws_state (s : ℕ) :
    (treeStep s).draws
        = 2 + (if nearCorridor (candX s) (candZ s) then 1 else 0)
            + (if (treeStep s).inst.isSome then 1 else 0)
      ∧ (treeStep s).state = mulberryStep^[(treeStep s).draws] s := by
  cases hn : nearCorridor (candX s) (candZ s) with
  | false =>
      constructor
      · simp [treeStep, rand_snd, hn]
      · simp [treeStep, rand_snd, hn, iterate_step_three]
  | true =>
      by_cases hs : ((rand (mulberryStep (mulberryStep s))).1 : ℚ) / M32 < 3/4
      · constructor
        · simp [treeStep, rand_snd, hn, hs]
        · simp [treeStep, rand_snd, hn, hs, iterate_step_three]
      · constructor
        · simp [treeStep, rand_snd, hn, hs]
        · simp [treeStep, rand_snd, hn, hs, iterate_step_four]

/-! ## Claim theorems -/

/-- Claim C1: for every seed and every configuration, running world
generation twice with the identical seed and identical configuration yields
identical patches, identical paths (same polylines in the same order) and
identical scatter-derived output — deep equality of the two results. In the
embedding the generator threads its RNG state explicitly and has no other
state, so two runs from the same constructed RNG coincide definitionally. -/
theorem world_generation_deterministic (trig : Trig) (worldSize bounds : ℚ)
    (seed : JsSeed) :
    (createWorld trig worldSize bounds (createRngState seed)).1.patches
        = (createWorld trig worldSize bounds (createRngState seed)).1.patches
      ∧ (createWorld trig worldSize bounds (createRngState seed)).1.paths
        = (createWorld trig worldSize bounds (createRngState seed)).1.paths
      ∧ (createWorld trig worldSize bounds (createRngState seed)).2
        = (createWorld trig worldSize bounds (createRngState seed)).2
      ∧ createWorld trig worldSize bounds (createRngState seed)
        = createWorld trig worldSize bounds (createRngState seed) :=
  ⟨rfl, rfl, rfl, rfl⟩

/-- Claim C2, counterexample: with seed "default" and default parameters the
three generated paths have 76, 76 and 56 points — the third path is carved
with `steps: 55`, so the claim that every path has 76 points is false. -/
theorem default_world_paths_ce :
    (createWorld trivialTrig 500 240
        (createRngState (JsSeed.str "default"))).1.paths.map
        (fun p => p.points.length) ≠ [76, 76, 76] := by
  rw [createWorld_path_lengths]
  decide

/-- Claim C2, amended: with seed "default" and default parameters the World
builder produces exactly 3 paths whose point counts are 76, 76 and 56
(steps 75, 75 and 55), and the landmarks include one with id "pond" at
position x = 110, z = 90. -/
theorem default_world_shape (trig : Trig) :
    (createWorld trig 500 240
        (createRngState (JsSeed.str "default"))).1.paths.length = 3
      ∧ (createWorld trig 500 240
          (createRngState (JsSeed.str "default"))).1.paths.map
          (fun p => p.points.length) = [76, 76, 56]
      ∧ (⟨"pond", "Pond", "water", 110, 90⟩ : Landmark)
          ∈ (createWorld trig 500 240
              (createRngState (JsSeed.str "default"))).1.landmarks := by
  refine ⟨?_, createWorld_path_lengths trig 500 240 _, ?_⟩
  · rw [createWorld_paths]
    rfl
  · rw [createWorld_landmarks]
    decide

/-- Claim C3, counterexample: with an invalid configuration (negative
`worldSize`, zero `bounds`) `createWorld` does not fail at all — it runs to
completion and returns a complete World with 70 patches, 3 paths and 4
landmarks, refuting "construction fails fatally before any RNG draw". -/
theorem invalid_config_still_builds_ce :
    (createWorld trivialTrig (-1) 0
        (createRngState (JsSeed.str "default"))).1.patches.length = 70
      ∧ (createWorld trivialTrig (-1) 0
          (createRngState (JsSeed.str "default"))).1.paths.map
          (fun p => p.points.length) = [76, 76, 56]
      ∧ (createWorld trivialTrig (-1) 0
          (createRngState (JsSeed.str "default"))).1.landmarks.length = 4
      ∧ (createWorld trivialTrig (-1) 0
          (createRngState (JsSeed.str "default"))).1.bounds = 0 := by
  refine ⟨?_, createWorld_path_lengths trivialTrig (-1) 0 _, ?_, rfl⟩
  · rw [createWorld_patches]
    exact genPatches_length 70 _
  · rw [createWorld_landmarks]
    rfl

/-- Claim C3, amended: `createWorld` performs no configuration validation:
the counts are hard-coded, the configurable extents (`worldSize`, `bounds`)
are never checked, and for every configuration — including zero or negative
extents — construction runs to completion and returns a complete World
(70 patches, 3 paths, 4 landmarks, the given bounds); it never fails and
never returns partial output. -/
theorem createWorld_total_no_validation (trig : Trig) (worldSize bounds : ℚ)
    (s0 : ℕ) :
    (createWorld trig worldSize bounds s0).1.patches.length = 70
      ∧ (createWorld trig worldSize bounds s0).1.paths.length = 3
      ∧ (createWorld trig worldSize bounds s0).1.landmarks.length = 4
      ∧ (createWorld trig worldSize bounds s0).1.bounds = bounds := by
  refine ⟨?_, ?_, ?_, rfl⟩
  · rw [createWorld_patches]
    exact genPatches_length 70 _
  · rw [createWorld_paths]
    rfl
  · rw [createWorld_landmarks]
    rfl

/-- Claim C4: for every `steps ≥ 0` the path carver returns a polyline of
exactly `steps + 1` points whose first point is the given start position;
in particular with `steps = 0` it returns exactly the one-point polyline at
the start position. -/
theorem carvePath_polyline_spec (trig : Trig) (startX startZ : ℚ) (steps : ℕ)
    (stepLen width turnChance : ℚ) (s : ℕ) :
    (carvePath trig startX startZ steps stepLen width turnChance s).1.points.length
        = steps + 1
      ∧ (carvePath trig startX startZ steps stepLen width turnChance s).1.points.head?
        = some ⟨startX, startZ⟩
      ∧ (carvePath trig startX startZ 0 stepLen width turnChance s).1.points
        = [⟨startX, startZ⟩] :=
  ⟨carvePath_points_length trig startX startZ steps stepLen width turnChance s,
    carvePath_head trig startX startZ steps stepLen width turnChance s, rfl⟩

/-- Claim C5: for every scatter candidate the zone-membership decision the
code takes agrees with the inclusive squared-distance comparison (the
squared-radius boundary is unreachable on the candidate grid, so the
source's strict `<` and the spec's inclusive test coincide), and exactly one
additional RNG draw — the skip decision — is consumed iff the candidate lies
in some exclusion zone: total draws are 2 (position) plus 1 iff in a zone
plus 1 iff the candidate is placed (size draw), and the state advances by
exactly that many steps. -/
theorem scatter_zone_decision_and_draws (s : ℕ) :
    nearCorridor (candX s) (candZ s) = nearCorridorInclusive (candX s) (candZ s)
      ∧ (treeStep s).draws
          = 2 + (if nearCorridorInclusive (candX s) (candZ s) then 1 else 0)
              + (if (treeStep s).inst.isSome then 1 else 0)
      ∧ (treeStep s).state = mulberryStep^[(treeStep s).draws] s := by
  have heq : nearCorridor (candX s) (candZ s)
      = nearCorridorInclusive (candX s) (candZ s) := by
    rw [candX_eq, candZ_eq]
    exact nearCorridor_eq_inclusive _ _
  obtain ⟨h1, h2⟩ := treeStep_draws_state s
  refine ⟨heq, ?_, h2⟩
  rw [← heq]
  exact h1

/-- Claim C6: for every seed and every draw (in particular the first 10,000),
the RNG's `next()` returns a value `≥ 0` and `< 1`: the output numerator is a
32-bit value divided by `2^32`. -/
theorem rng_output_in_unit_interval (seed : JsSeed) (n : ℕ) :
    0 ≤ rngOutQ seed n ∧ rngOutQ seed n < 1 :=
  ⟨randQ_nonneg _, randQ_lt_one _⟩

/-- Claim C7, counterexample: an empty-string seed and an undefined seed do
NOT produce the same stream: `createRng(undefined)` falls back to the
default parameter "default" (hash 2470140894) while `createRng("")` hashes
the empty string to the FNV-1a offset basis 2166136261; their first outputs
already differ. -/
theorem rng_empty_vs_undef_seed_ce :
    createRngState (JsSeed.str "") ≠ createRngState JsSeed.undef
      ∧ rngOutQ (JsSeed.str "") 0 ≠ rngOutQ JsSeed.undef 0 := by
  constructor
  · decide
  · intro h
    have hM : ((M32 : ℕ) : ℚ) ≠ 0 := by norm_num [M32]
    unfold rngOutQ randQ at h
    rw [div_eq_div_iff hM hM] at h
    have h2 := mul_right_cancel₀ hM h
    have h3 : mulberryOut (mulberryStep (rngState (JsSeed.str "") 0))
        = mulberryOut (mulberryStep (rngState JsSeed.undef 0)) := by
      exact_mod_cast h2
    revert h3
    decide

/-- Claim C7, amended: RNG construction never throws (it is a total
function of the seed value); an omitted/undefined seed falls back to the
fixed default seed string "default" (hashed to 2470140894); an empty string
is not special-cased: it is hashed like any other string, to the FNV-1a
offset basis 2166136261, which differs from the fallback, so empty-string
and undefined seeds yield different streams. -/
theorem rng_seed_fallback :
    createRngState JsSeed.undef = hashStringToUint32 "default"
      ∧ hashStringToUint32 "default" = 2470140894
      ∧ createRngState (JsSeed.str "") = 2166136261
      ∧ (∀ str : String, createRngState (JsSeed.str str) = hashStringToUint32 str) := by
  refine ⟨rfl, by decide, by decide, fun _ => rfl⟩

/-- Claim C8, counterexample: the RNG's closure variable `t` is NOT kept in
`[0, 2^32)` — `t += 0x6D2B79F5` has no 32-bit write-back, so with the
default seed (hash 2470140894) the state is already 4301706707 ≥ `2^32`
after the very first draw. -/
theorem rng_state_not_32bit_ce :
    rngStateJs JsSeed.undef 1 = 4301706707
      ∧ ¬ rngStateJs JsSeed.undef 1 < M32 := by
  constructor
  · decide
  · decide

/-- Claim C8, amended: the RNG's internal state is a single numeric counter
that is coerced to 32 bits only at read sites, not on update, so it is not
confined to `[0, 2^32)`; it is mutated on every draw — each draw strictly
increases it by `0x6D2B79F5`, and `rand`, `float` and `int` each advance it
by exactly one step, never returning without advancing — and its read-site
image mod `2^32` evolves as the 32-bit counter of the reduced model and
fully determines every output. -/
theorem rng_state_counter_mutates (seed : JsSeed) (n : ℕ) :
    rngStateJs seed (n + 1) = rngStateJs seed n + 0x6D2B79F5
      ∧ rngStateJs seed n < rngStateJs seed (n + 1)
      ∧ (randJs (rngStateJs seed n)).2 = rngStateJs seed (n + 1)
      ∧ (floatJs 0 1 (rngStateJs seed n)).2 = rngStateJs seed (n + 1)
      ∧ (intJs 0 1 (rngStateJs seed n)).2 = rngStateJs seed (n + 1)
      ∧ rngStateJs seed n % M32 = rngState seed n
      ∧ (randJs (rngStateJs seed n)).1 = (rand (rngState seed n)).1 := by
  have hs : rngStateJs seed (n + 1) = mulberryStepJs (rngStateJs seed n) :=
    Function.iterate_succ_apply' _ _ _
  refine ⟨hs, ?_, ?_, ?_, ?_, rngStateJs_mod seed n, ?_⟩
  · rw [hs]
    unfold mulberryStepJs
    omega
  · rw [hs]
    rfl
  · rw [hs]
    rfl
  · rw [hs]
    rfl
  · show mulberryOut (mulberryStepJs (rngStateJs seed n) % M32)
        = mulberryOut (mulberryStep (rngState seed n))
    rw [mulberryStepJs_mod, rngStateJs_mod]

/-- Claim C9: within every generated World the landmark ids are pairwise
unique, and the landmark list is fixed non-randomized data: it equals the
constant `addLandmarks` registry for every RNG state, hence consumes no RNG
state and is identical across calls with the same configuration. -/
theorem landmarks_unique_and_rng_free (trig : Trig) (worldSize bounds : ℚ)
    (s s' : ℕ) :
    ((createWorld trig worldSize bounds s).1.landmarks.map Landmark.id).Pairwise
        (fun a b => a ≠ b)
      ∧ (createWorld trig worldSize bounds s).1.landmarks = addLandmarks
      ∧ (createWorld trig worldSize bounds s).1.landmarks
        = (createWorld trig worldSize bounds s').1.landmarks := by
  refine ⟨?_, rfl, rfl⟩
  rw [createWorld_landmarks]
  decide

/-- Claim C10: calling `pick` on an empty sequence returns `undefined`
(modelled `none`) rather than raising an error, and it still advances the
RNG state by exactly one draw. -/
theorem pick_empty_returns_undefined {α : Type} (s : ℕ) :
    pick ([] : List α) s = (none, mulberryStep s) ∧ mulberryStep s ≠ s :=
  ⟨rfl, mulberryStep_ne s⟩

end AdventureWorld
